import Mathlib

/-!
Verification of the debate orchestration engine of
`snowflake-cortex-multi-agent-debate` against its specification.

The Python sources under `src/` are shallowly embedded below:

* Python `str` values are Lean `String`s; the text-scanning primitives the
  sources use (`split`, `strip`, `replace`, `startswith`, `in`, `upper`,
  whitespace `split()`) are re-implemented over `List Char` so that every
  definition is executable and kernel-reducible.  Each primitive carries a
  comment naming the Python operation it models.
* Python `float` values are modelled as exact rationals (`ℚ`).  Every claim
  about them concerns only defaulting, clamping and order, which the
  exact-rational abstraction preserves.  Numeric literals of the source
  (`0.7`, `0.9`, `0.5`, `50.0`) are written `Rat.divInt a b`.
* `datetime.now()` timestamps are omitted from the records: they are opaque
  wall-clock strings that no specified property mentions.
* Each LangGraph node (`Researcher.__call__`, `BullAgent.__call__`,
  `BearAgent.__call__`, `Moderator.__call__`, `Judge.__call__`) becomes a pure
  function from the current state and the oracle response text(s) of that turn
  to a partial state update; the LLM response is a universally quantified
  input, so the prompt strings the sources assemble are not modelled.
* LangGraph's state merge is embedded in `applyUpdate`: the `arguments` key of
  `DebateState` is annotated with the `add_arguments` reducer in
  `src/graph/state.py` and is merged by appending, every other key is a
  last-value channel that is overwritten when the node's update carries it.
-/

namespace Debate

/-! ## Character-list string primitives (models of Python `str` methods) -/

/-- Model of Python `sub in s` (substring containment). -/
def pyContains (sub : List Char) : List Char → Bool
  | [] => sub.isPrefixOf []
  | c :: rest => sub.isPrefixOf (c :: rest) || pyContains sub rest

/-- Model of Python `s.startswith(pre)`. -/
def pyStartsWith (pre l : List Char) : Bool :=
  pre.isPrefixOf l

/-- Model of Python `s.split(sep)` for a single-character separator (keeping
empty pieces); every separator the sources split on — `"\n"`, `":"`, `"."` —
is a single character. -/
def pySplitOnChar (sep : Char) : List Char → List (List Char)
  | [] => [[]]
  | c :: rest =>
    if c = sep then [] :: pySplitOnChar sep rest
    else
      match pySplitOnChar sep rest with
      | [] => [[c]]
      | piece :: pieces => (c :: piece) :: pieces

/-- Model of Python `s.split(sep, 1)[1]`: the text after the first occurrence
of `sep`, or `none` when `sep` does not occur. -/
def pyAfterFirst (sep : List Char) : List Char → Option (List Char)
  | [] => none
  | c :: rest =>
    if sep.isPrefixOf (c :: rest) then some ((c :: rest).drop sep.length)
    else pyAfterFirst sep rest

/-- Model of Python `s.replace(pat, repl)` (all occurrences, left to right,
non-overlapping), with a step-count argument to make the recursion structural;
`pat` is nonempty at every use site and each step consumes at least one input
character, so `fuel = l.length` never runs out. -/
def pyReplaceAux (pat repl : List Char) : ℕ → List Char → List Char
  | 0, l => l
  | _ + 1, [] => []
  | fuel + 1, c :: rest =>
    if pat.isPrefixOf (c :: rest) then
      repl ++ pyReplaceAux pat repl fuel (rest.drop (pat.length - 1))
    else
      c :: pyReplaceAux pat repl fuel rest

/-- Model of Python `s.replace(pat, repl)`. -/
def pyReplace (pat repl l : List Char) : List Char :=
  pyReplaceAux pat repl l.length l

/-- Model of Python `s.strip()` (whitespace from both ends). -/
def pyStrip (l : List Char) : List Char :=
  ((l.dropWhile Char.isWhitespace).reverse.dropWhile Char.isWhitespace).reverse

/-- Model of Python `s.strip(chars)` (any of the given characters, both
ends). -/
def pyStripChars (cs : List Char) (l : List Char) : List Char :=
  ((l.dropWhile (cs.contains ·)).reverse.dropWhile (cs.contains ·)).reverse

/-- Auxiliary scanner for `pySplitWhitespace`. -/
def pySplitWsAux : List Char → List Char → List (List Char)
  | [], acc => [acc.reverse]
  | c :: rest, acc =>
    if c.isWhitespace then acc.reverse :: pySplitWsAux rest []
    else pySplitWsAux rest (c :: acc)

/-- Model of Python `s.split()` (split on whitespace runs, dropping empty
pieces). -/
def pySplitWhitespace (l : List Char) : List (List Char) :=
  (pySplitWsAux l []).filter (· ≠ [])

/-- Model of Python `s.upper()` (the sources only feed it ASCII label
text). -/
def pyUpper (l : List Char) : List Char :=
  l.map Char.toUpper

/-- Model of Python `s.upper()` on `String`. -/
def pyUpperS (s : String) : String :=
  String.mk (pyUpper s.data)

/-- Model of Python `response.split("\n")`, the line iteration used by every
response parser in `src/agents/`. -/
def pyLines (s : String) : List (List Char) :=
  pySplitOnChar '\n' s.data

/-- Numeric value of a digit run. -/
def digitsVal (l : List Char) : ℕ :=
  l.foldl (fun a c => a * 10 + (c.toNat - 48)) 0

/-- Model of Python `float(tok)` on the plain decimal forms
(`[+-]?digits`, `[+-]?digits.digits`, `[+-]?.digits`, `[+-]?digits.`) that the
oracle label values take; other accepted forms of Python `float` (exponents,
`inf`, `nan`, underscores) are outside the modelled input space, and no claim
depends on them.  The value is the exact rational the literal denotes. -/
def pyFloat? (tok : List Char) : Option ℚ :=
  let t := pyStrip tok
  let sgn : ℤ := match t with
    | '-' :: _ => -1
    | _ => 1
  let body : List Char := match t with
    | '-' :: r => r
    | '+' :: r => r
    | _ => t
  match pySplitOnChar '.' body with
  | [i] =>
      if i ≠ [] ∧ i.all Char.isDigit then
        some (Rat.divInt (sgn * (digitsVal i : ℤ)) 1)
      else none
  | [i, f] =>
      if (i ≠ [] ∨ f ≠ []) ∧ i.all Char.isDigit ∧ f.all Char.isDigit then
        some (Rat.divInt
          (sgn * ((digitsVal i : ℤ) * (10 : ℤ) ^ f.length + (digitsVal f : ℤ)))
          ((10 : ℤ) ^ f.length))
      else none
  | _ => none

/-! ## Data model (`src/graph/state.py`) -/

/-- `Argument` dataclass (`src/graph/state.py`, lines 10-26).  The
`timestamp` field (a `datetime.now().isoformat()` string) is omitted: it is
opaque wall-clock data that no claim mentions.  The source default for
`confidence` is `0.0`. -/
structure Argument where
  agent : String
  content : String
  evidence : List String
  confidence : ℚ
deriving DecidableEq

/-- One fact-check record as built by `Moderator.fact_check`
(`src/agents/moderator.py`, lines 86-90). -/
structure FactCheck where
  agent_checked : String
  accuracy_score : ℚ
  feedback : String
deriving DecidableEq

/-- Python `dict` for a research record, modelled as an association list with
string values (the claims depend only on emptiness and on the
`COMPANY_NAME` lookup). -/
abbrev StrDict := List (String × String)

/-- Model of Python `d.get(k, dflt)` on `StrDict`. -/
def dictGet (m : StrDict) (k dflt : String) : String :=
  ((m.find? (fun p => p.1 == k)).map Prod.snd).getD dflt

/-- `ResearchData` dataclass (`src/graph/state.py`, lines 29-61), with the
source's empty defaults. -/
structure ResearchData where
  ticker : String
  company_name : String
  metrics : StrDict
  earnings_history : List StrDict
  technical_indicators : StrDict
  sentiment : StrDict
  insider_activity : List StrDict
  institutional_holdings : List StrDict
  analyst_reports : List StrDict
  earnings_transcripts : List StrDict
  sec_filings : List StrDict
deriving DecidableEq

/-- An empty `ResearchData(ticker=ticker)` as constructed at
`src/agents/researcher.py`, line 32. -/
def ResearchData.empty (ticker : String) : ResearchData :=
  { ticker := ticker
    company_name := ""
    metrics := []
    earnings_history := []
    technical_indicators := []
    sentiment := []
    insider_activity := []
    institutional_holdings := []
    analyst_reports := []
    earnings_transcripts := []
    sec_filings := [] }

/-- `Verdict` dataclass (`src/graph/state.py`, lines 136-158); `timestamp`
omitted as for `Argument`. -/
structure Verdict where
  recommendation : String
  confidence : ℚ
  summary : String
  bull_score : ℚ
  bear_score : ℚ
  key_factors : List String
  risks : List String
deriving DecidableEq

/-- `DebateState` TypedDict (`src/graph/state.py`, lines 69-101).  The debug
channels `_analyst_log` and `_search_log` are omitted: the spec treats them as
opaque pass-through values and no claim mentions them. -/
structure DebateState where
  ticker : String
  question : String
  research_data : Option ResearchData
  current_round : ℤ
  max_rounds : ℤ
  current_speaker : String
  arguments : List Argument
  fact_checks : List FactCheck
  verdict : Option Verdict
  errors : List String
deriving DecidableEq

/-- `add_arguments` reducer (`src/graph/state.py`, lines 64-66). -/
def add_arguments (left right : List Argument) : List Argument :=
  left ++ right

/-- One node's returned partial state update.  A `none` / `[]` component means
the node's returned dict did not carry that key.  No node ever writes
`ticker`, `question` or `max_rounds`, so those keys are not represented. -/
structure StateUpdate where
  arguments : List Argument
  fact_checks : Option (List FactCheck)
  current_speaker : Option String
  current_round : Option ℤ
  research_data : Option ResearchData
  verdict : Option Verdict
  errors : Option (List String)

/-- A `StateUpdate` carrying no keys. -/
def StateUpdate.empty : StateUpdate :=
  { arguments := []
    fact_checks := none
    current_speaker := none
    current_round := none
    research_data := none
    verdict := none
    errors := none }

/-- LangGraph's merge of a node's update into the shared state: `arguments`
goes through the `add_arguments` reducer (its `Annotated` channel in
`src/graph/state.py`, line 88); every other key is a last-value channel,
overwritten exactly when the update carries it. -/
def applyUpdate (s : DebateState) (u : StateUpdate) : DebateState :=
  { ticker := s.ticker
    question := s.question
    research_data := match u.research_data with
      | some r => some r
      | none => s.research_data
    current_round := u.current_round.getD s.current_round
    max_rounds := s.max_rounds
    current_speaker := u.current_speaker.getD s.current_speaker
    arguments := add_arguments s.arguments u.arguments
    fact_checks := u.fact_checks.getD s.fact_checks
    verdict := match u.verdict with
      | some v => some v
      | none => s.verdict
    errors := u.errors.getD s.errors }

/-- `create_initial_state` (`src/graph/state.py`, lines 104-133).  Python's
`question or f"Should we buy or sell {ticker.upper()}?"` treats both `None`
and the empty string as absent. -/
def create_initial_state (ticker : String) (question : Option String)
    (max_rounds : ℤ) : DebateState :=
  let dflt := "Should we buy or sell " ++ pyUpperS ticker ++ "?"
  { ticker := pyUpperS ticker
    question := match question with
      | some q => if q = "" then dflt else q
      | none => dflt
    research_data := none
    current_round := 0
    max_rounds := max_rounds
    current_speaker := "research"
    arguments := []
    fact_checks := []
    verdict := none
    errors := [] }

/-! ## Advocates (`src/agents/bull_agent.py`, `src/agents/bear_agent.py`)

The response-parsing block of `BullAgent.generate_argument` (lines 109-131)
and of `BearAgent.generate_argument` (lines 109-131) are textually identical
apart from the `agent` tag, so they are embedded once.  The prompt assembly
(including the backward search for the most recent opposing argument, lines
136-140 of each file) only feeds the oracle call; the oracle's response is the
free `response` input here, so the prompt text is not modelled. -/

/-- The advocate parse loop: `confidence` defaults to `0.7` and is overwritten
by the last line starting with `CONFIDENCE:` whose value parses as a float
(parse failures are swallowed by the bare `except`); each line starting with
`EVIDENCE:` appends one citation string. -/
def advocate_parse_loop (response : String) : ℚ × List String :=
  List.foldl
    (fun acc line =>
      if pyStartsWith "CONFIDENCE:".data line then
        let conf_str := pyStrip (pyReplace "CONFIDENCE:".data [] line)
        match (pySplitWhitespace conf_str).head? with
        | some tok =>
          match pyFloat? tok with
          | some q => (q, acc.2)
          | none => acc
        | none => acc
      else if pyStartsWith "EVIDENCE:".data line then
        (acc.1, acc.2 ++ [String.mk (pyStrip (pyReplace "EVIDENCE:".data [] line))])
      else acc)
    (Rat.divInt 7 10, [])
    (pyLines response)

/-- The `Argument` an advocate builds from one oracle response
(`generate_argument`, lines 107-131 of both advocate files): the full raw text
is kept as `content`, and the parsed confidence is clamped by
`min(max(confidence, 0.0), 1.0)` at construction. -/
def advocate_parse (agent : String) (response : String) : Argument :=
  let parsed := advocate_parse_loop response
  { agent := agent
    content := response
    evidence := parsed.2
    confidence := min (max parsed.1 0) 1 }

namespace BullAgent

/-- `BullAgent.__call__` (`src/agents/bull_agent.py`, lines 133-147): appends
the bull argument and always routes to `moderator`; it performs no round
check and does not touch `current_round`. -/
def call (_state : DebateState) (response : String) : StateUpdate :=
  { StateUpdate.empty with
    arguments := [advocate_parse "bull" response]
    current_speaker := some "moderator" }

end BullAgent

namespace BearAgent

/-- `BearAgent.__call__` (`src/agents/bear_agent.py`, lines 133-157): appends
the bear argument, routes to `judge` when `current_round >= max_rounds` and to
`moderator` otherwise, and writes `current_round + 1`. -/
def call (state : DebateState) (response : String) : StateUpdate :=
  let next_speaker :=
    if state.current_round ≥ state.max_rounds then "judge" else "moderator"
  { StateUpdate.empty with
    arguments := [advocate_parse "bear" response]
    current_speaker := some next_speaker
    current_round := some (state.current_round + 1) }

end BearAgent

/-! ## Moderator (`src/agents/moderator.py`) -/

namespace Moderator

/-- The accuracy-score extraction of `Moderator.fact_check` (lines 77-84):
`accuracy` defaults to `0.7`; for every line containing `ACCURACY_SCORE:` the
segment between the first and second colon is stripped, its first whitespace
token parsed as a float, and parse failures are swallowed by the bare
`except`. -/
def fact_check_accuracy (response : String) : ℚ :=
  List.foldl
    (fun acc line =>
      if pyContains "ACCURACY_SCORE:".data line then
        match (pySplitOnChar ':' line).get? 1 with
        | some seg =>
          match (pySplitWhitespace (pyStrip seg)).head? with
          | some tok => (pyFloat? tok).getD acc
          | none => acc
        | none => acc
      else acc)
    (Rat.divInt 7 10)
    (pyLines response)

/-- `Moderator.fact_check` (lines 49-90): the returned record stores the
parsed accuracy as-is — unlike every other numeric field in the system it is
not clamped — and keeps the full response as `feedback`.  The `state`
argument only feeds the prompt. -/
def fact_check (_state : DebateState) (argument_to_check : Argument)
    (response : String) : FactCheck :=
  { agent_checked := argument_to_check.agent
    accuracy_score := fact_check_accuracy response
    feedback := response }

/-- `Moderator.generate_argument` (lines 92-128): the summary `Argument`
carries the full response as `content` and the hard-coded confidence `0.9`
("Moderator is confident in observations"); nothing is parsed from the
response. -/
def generate_argument (_state : DebateState) (response : String) : Argument :=
  { agent := "moderator"
    content := response
    evidence := []
    confidence := Rat.divInt 9 10 }

/-- Python `state.get("arguments", [])[-2:]`. -/
def lastTwo (args : List Argument) : List Argument :=
  args.drop (args.length - 2)

/-- The arguments `Moderator.__call__` fact-checks (lines 135-139): those of
the last two whose `agent` is `bull` or `bear`. -/
def argsToCheck (state : DebateState) : List Argument :=
  (lastTwo state.arguments).filter (fun a => a.agent == "bull" || a.agent == "bear")

/-- `Moderator.__call__` (lines 130-154): one summary argument (its oracle
call happens first), one fact-check oracle call per checked argument
(`fcResponses i` is the response of the `i`-th of those calls), and routing:
`judge` when `current_round >= max_rounds`, else always `bull`
("Bull starts next round"); `current_round` is not written. -/
def call (state : DebateState) (summaryResponse : String)
    (fcResponses : ℕ → String) : StateUpdate :=
  let argument := generate_argument state summaryResponse
  let fact_checks :=
    (argsToCheck state).enum.map (fun p => fact_check state p.2 (fcResponses p.1))
  let next_speaker :=
    if state.current_round ≥ state.max_rounds then "judge" else "bull"
  { StateUpdate.empty with
    arguments := [argument]
    fact_checks := some fact_checks
    current_speaker := some next_speaker }

end Moderator

/-! ## Judge (`src/agents/judge.py`) -/

namespace Judge

/-- The mutable locals of the `generate_verdict` parse loop (lines 109-147).
The local `risks` is not represented because no branch of the loop writes to
it: the `KEY_FACTORS:` branch is `pass`, and the bullet branch appends to
`key_factors` only. -/
structure VParse where
  recommendation : String
  confidence : ℚ
  bull_score : ℚ
  bear_score : ℚ
  summary : String
  key_factors : List String
deriving DecidableEq

/-- The recommendation labels in source order (line 122): the longer labels
are checked before their substrings. -/
def recLabels : List String :=
  ["STRONG BUY", "STRONG SELL", "BUY", "SELL", "HOLD"]

/-- Parse of `line.split(":")[1].strip().split()[0]` as a float, with the bare
`except: pass` keeping the previous value. -/
def numAfterColon (line : List Char) (prev : ℚ) : ℚ :=
  match (pySplitOnChar ':' line).get? 1 with
  | some seg =>
    match (pySplitWhitespace (pyStrip seg)).head? with
    | some tok => (pyFloat? tok).getD prev
    | none => prev
  | none => prev

/-- One iteration of the `generate_verdict` parse loop (lines 118-147),
branching on the upper-cased line exactly in source `elif` order. -/
def verdictLineStep (acc : VParse) (line : List Char) : VParse :=
  let lu := pyUpper line
  if pyContains "RECOMMENDATION:".data lu then
    let rec_text := pyUpper (pyStrip ((pyAfterFirst [':'] line).getD []))
    match recLabels.find? (fun r => pyContains r.data rec_text) with
    | some r => { acc with recommendation := r }
    | none => acc
  else if pyContains "CONFIDENCE:".data lu then
    { acc with confidence := numAfterColon line acc.confidence }
  else if pyContains "BULL_SCORE:".data lu then
    { acc with bull_score := numAfterColon line acc.bull_score }
  else if pyContains "BEAR_SCORE:".data lu then
    { acc with bear_score := numAfterColon line acc.bear_score }
  else if pyContains "SUMMARY:".data lu then
    if pyContains [':'] line then
      { acc with summary := String.mk (pyStrip ((pyAfterFirst [':'] line).getD [])) }
    else acc
  else if pyContains "KEY_FACTORS:".data lu || pyContains "KEY FACTORS:".data lu then
    acc
  else if pyStartsWith "-".data (pyStrip line) ∧ acc.key_factors.length < 5 then
    { acc with key_factors := acc.key_factors ++ [String.mk (pyStripChars "- ".data line)] }
  else acc

/-- The full parse loop of `generate_verdict` with the source defaults
(`HOLD`, `0.5`, `50.0`, `50.0`, the whole response as `summary`, no key
factors yet). -/
def parse_fields (response : String) : VParse :=
  List.foldl verdictLineStep
    { recommendation := "HOLD"
      confidence := Rat.divInt 1 2
      bull_score := Rat.divInt 50 1
      bear_score := Rat.divInt 50 1
      summary := response
      key_factors := [] }
    (pyLines response)

/-- `Judge.generate_verdict` (lines 69-163).  After the loop: an empty
`key_factors` falls back to one placeholder; `risks` is still the empty list
it was initialised to (no loop branch writes it), so the `if not risks`
fallback always fires and `risks` is always the fixed two-entry list.  The
confidence and both scores are clamped at construction; `key_factors` and
`risks` are truncated to 5 and 3.  The `state` argument only feeds the
prompt. -/
def generate_verdict (_state : DebateState) (response : String) : Verdict :=
  let p := parse_fields response
  let key_factors :=
    if p.key_factors = [] then ["See detailed analysis in summary"]
    else p.key_factors
  let risks : List String := []
  let risks :=
    if risks = [] then ["Market volatility", "Execution risk"] else risks
  { recommendation := p.recommendation
    confidence := min (max p.confidence 0) 1
    summary := p.summary
    bull_score := min (max p.bull_score 0) (100 : ℚ)
    bear_score := min (max p.bear_score 0) (100 : ℚ)
    key_factors := key_factors.take 5
    risks := risks.take 3 }

/-- The transcript `Argument` built in `Judge.__call__` (lines 170-186).  The
Python f-string interpolates the scores and confidence with float/percent
formatting; the exact numeric rendering is abbreviated here since no claim
concerns the transcript text. -/
def transcript (v : Verdict) : String :=
  "VERDICT: " ++ v.recommendation ++ "\n\n" ++ v.summary ++
  "\n\nKey Factors:\n" ++
  String.intercalate "\n" (v.key_factors.map (fun f => "- " ++ f)) ++
  "\n\nRisks to Monitor:\n" ++
  String.intercalate "\n" (v.risks.map (fun r => "- " ++ r))

/-- `Judge.__call__` (lines 165-192): writes the verdict and the transcript
argument and always routes to `end`, regardless of round state. -/
def call (state : DebateState) (response : String) : StateUpdate :=
  let verdict := generate_verdict state response
  let argument : Argument :=
    { agent := "judge"
      content := transcript verdict
      evidence := []
      confidence := verdict.confidence }
  { StateUpdate.empty with
    arguments := [argument]
    verdict := some verdict
    current_speaker := some "end" }

end Judge

/-! ## Researcher (`src/agents/researcher.py`) -/

/-- The outcomes of the nine independent research-provider calls issued by
`Researcher.gather_research` (`Except.error e` models the call raising an
exception rendered as `e`). -/
structure FetchResults where
  metrics : Except String StrDict
  earnings_history : Except String (List StrDict)
  technical_indicators : Except String StrDict
  sentiment : Except String StrDict
  insider_activity : Except String (List StrDict)
  institutional_holdings : Except String (List StrDict)
  analyst_reports : Except String (List StrDict)
  earnings_transcripts : Except String (List StrDict)
  sec_filings : Except String (List StrDict)

namespace Researcher

/-- `Researcher.gather_research` (lines 20-94): nine sequential
`try`/`except` blocks, each writing only its own category (plus
`company_name` inside the metrics block) and, on failure, printing one
`Error getting ...` line to stdout — the returned list collects those printed
lines in order.  Nothing is appended to the state's `errors` here. -/
def gather_research (ticker : String) (f : FetchResults) :
    ResearchData × List String :=
  let t := pyUpperS ticker
  let r0 := ResearchData.empty t
  let (r1, log1) := match f.metrics with
    | .ok m => ({ r0 with metrics := m, company_name := dictGet m "COMPANY_NAME" t }, [])
    | .error e => (r0, ["Error getting metrics: " ++ e])
  let (r2, log2) := match f.earnings_history with
    | .ok l => ({ r1 with earnings_history := l }, [])
    | .error e => (r1, ["Error getting earnings history: " ++ e])
  let (r3, log3) := match f.technical_indicators with
    | .ok m => ({ r2 with technical_indicators := m }, [])
    | .error e => (r2, ["Error getting technical indicators: " ++ e])
  let (r4, log4) := match f.sentiment with
    | .ok m => ({ r3 with sentiment := m }, [])
    | .error e => (r3, ["Error getting sentiment: " ++ e])
  let (r5, log5) := match f.insider_activity with
    | .ok l => ({ r4 with insider_activity := l }, [])
    | .error e => (r4, ["Error getting insider activity: " ++ e])
  let (r6, log6) := match f.institutional_holdings with
    | .ok l => ({ r5 with institutional_holdings := l }, [])
    | .error e => (r5, ["Error getting institutional holdings: " ++ e])
  let (r7, log7) := match f.analyst_reports with
    | .ok l => ({ r6 with analyst_reports := l }, [])
    | .error e => (r6, ["Error searching analyst reports: " ++ e])
  let (r8, log8) := match f.earnings_transcripts with
    | .ok l => ({ r7 with earnings_transcripts := l }, [])
    | .error e => (r7, ["Error searching earnings transcripts: " ++ e])
  let (r9, log9) := match f.sec_filings with
    | .ok l => ({ r8 with sec_filings := l }, [])
    | .error e => (r8, ["Error searching SEC filings: " ++ e])
  (r9, log1 ++ log2 ++ log3 ++ log4 ++ log5 ++ log6 ++ log7 ++ log8 ++ log9)

/-- `Researcher.__call__` (lines 96-122).  `gather_research` wraps every
provider call in its own `try`/`except`, so it is total and the outer
`except` branch of `__call__` (the only place that would write `errors`) is
dead code; the success branch writes the bundle and routes to `bull`, leaving
`errors` untouched.  The `_analyst_log`/`_search_log` pass-through values are
omitted as in `DebateState`. -/
def call (state : DebateState) (f : FetchResults) : StateUpdate :=
  { StateUpdate.empty with
    research_data := some (gather_research state.ticker f).1
    current_speaker := some "bull" }

end Researcher

/-! ## Workflow graph (`src/graph/workflow.py`, `create_debate_graph`) -/

/-- The graph nodes, plus LangGraph's `END` (`done`) and a sink for a routing
label absent from a conditional-edge mapping (`invalid`, which LangGraph
would reject at runtime; the invariants below show it is never reached). -/
inductive Node
  | research
  | bull
  | bear
  | moderator
  | judge
  | done
  | invalid
deriving DecidableEq

/-- `route_next_speaker` (lines 42-57); LangGraph's `END` constant is the
string `"__end__"`. -/
def route_next_speaker (s : DebateState) : String :=
  let speaker := s.current_speaker
  if speaker = "end" then "__end__"
  else if speaker = "bull" then "bull"
  else if speaker = "bear" then "bear"
  else if speaker = "moderator" then "moderator"
  else if speaker = "judge" then "judge"
  else "bull"

/-- `route_after_moderator` (lines 77-88). -/
def route_after_moderator (s : DebateState) : String :=
  if s.current_speaker = "judge" ∨ s.current_round > s.max_rounds then "judge"
  else if s.current_speaker = "bull" then "bull"
  else "bear"

/-- The conditional-edge mapping added after `bull` and after `bear`
(lines 66-74 and 101-109): only `moderator`, `judge` and `END` are wired. -/
def advocateDest (label : String) : Node :=
  if label = "moderator" then .moderator
  else if label = "judge" then .judge
  else if label = "__end__" then .done
  else .invalid

/-- The conditional-edge mapping added after `moderator` (lines 90-98):
`bull`, `bear` and `judge` are wired. -/
def moderatorDest (label : String) : Node :=
  if label = "bull" then .bull
  else if label = "bear" then .bear
  else if label = "judge" then .judge
  else .invalid

/-- A point of the graph execution: the node about to run, the shared state,
and the number of oracle calls consumed so far (the index into the response
stream `o`). -/
structure Config where
  node : Node
  state : DebateState
  calls : ℕ
deriving DecidableEq

/-- One step of the compiled graph: run the node bound to the current point,
merge its update, then follow the edge wired for it in `create_debate_graph`
(`research → bull` and `judge → END` are unconditional edges; the advocates
and the moderator use their conditional-edge routers on the merged state).
The moderator consumes one summary call plus one fact-check call per checked
argument, in that order. -/
def step (f : FetchResults) (o : ℕ → String) (c : Config) : Config :=
  match c.node with
  | .research =>
    let s := applyUpdate c.state (Researcher.call c.state f)
    ⟨.bull, s, c.calls⟩
  | .bull =>
    let s := applyUpdate c.state (BullAgent.call c.state (o c.calls))
    ⟨advocateDest (route_next_speaker s), s, c.calls + 1⟩
  | .bear =>
    let s := applyUpdate c.state (BearAgent.call c.state (o c.calls))
    ⟨advocateDest (route_next_speaker s), s, c.calls + 1⟩
  | .moderator =>
    let n := (Moderator.argsToCheck c.state).length
    let s := applyUpdate c.state
      (Moderator.call c.state (o c.calls) (fun i => o (c.calls + 1 + i)))
    ⟨moderatorDest (route_after_moderator s), s, c.calls + 1 + n⟩
  | .judge =>
    let s := applyUpdate c.state (Judge.call c.state (o c.calls))
    ⟨.done, s, c.calls + 1⟩
  | .done => c
  | .invalid => c

/-- `n` steps of the compiled graph from an initial state, entering at the
`research` node (`graph.set_entry_point("research")`). -/
def runDebate (f : FetchResults) (o : ℕ → String) (s0 : DebateState) :
    ℕ → Config
  | 0 => ⟨.research, s0, 0⟩
  | n + 1 => step f o (runDebate f o s0 n)

/-! ## Concrete fixtures used by the theorems -/

/-- Provider outcomes where all nine fetches succeed with empty results. -/
def f0 : FetchResults :=
  { metrics := .ok []
    earnings_history := .ok []
    technical_indicators := .ok []
    sentiment := .ok []
    insider_activity := .ok []
    institutional_holdings := .ok []
    analyst_reports := .ok []
    earnings_transcripts := .ok []
    sec_filings := .ok [] }

/-- An oracle answering every call with empty text. -/
def o0 : ℕ → String := fun _ => ""

/-- The initial state of a default session: `create_initial_state("XYZ")`
with the default `max_rounds=3`. -/
def init3 : DebateState := create_initial_state "XYZ" none 3

/-- The initial state of a session with `max_rounds=0` (the only
configuration under which the compiled graph ever leaves the
bull/moderator cycle). -/
def init0 : DebateState := create_initial_state "XYZ" none 0

/-! ## Claim theorems -/

/-- Clamping `min(max(x, 0.0), 1.0)` always lands in `[0, 1]`. -/
theorem clamp01_bounds (x : ℚ) :
    0 ≤ min (max x 0) 1 ∧ min (max x 0) 1 ≤ 1 :=
  ⟨le_min (le_max_right x 0) zero_le_one, min_le_right _ _⟩

/-- Clamping `min(max(x, 0.0), 100.0)` always lands in `[0, 100]`. -/
theorem clamp100_bounds (x : ℚ) :
    0 ≤ min (max x 0) (100 : ℚ) ∧ min (max x 0) (100 : ℚ) ≤ 100 :=
  ⟨le_min (le_max_right x 0) (by norm_num), min_le_right _ _⟩

/-- C10: for every oracle response text, the moderator's per-round summary
`Argument` carries the hard-coded confidence `0.9` (`Rat.divInt 9 10`) and the
raw response as `content` — nothing is parsed from the response — and the
moderator turn merges exactly that argument. -/
theorem C10_moderator_confidence_hardcoded
    (s : DebateState) (r : String) (rfc : ℕ → String) :
    (Moderator.generate_argument s r).confidence = Rat.divInt 9 10
    ∧ (Moderator.generate_argument s r).content = r
    ∧ (Moderator.generate_argument s r).agent = "moderator"
    ∧ (Moderator.call s r rfc).arguments = [Moderator.generate_argument s r] :=
  ⟨rfl, rfl, rfl, rfl⟩

/-- C10 witness: the theorem applied at a concrete state and response. -/
theorem C10_moderator_confidence_hardcoded_witness :
    (Moderator.generate_argument init3 "BULL_ACCURACY: 0.2").confidence
      = Rat.divInt 9 10 :=
  (C10_moderator_confidence_hardcoded init3 "BULL_ACCURACY: 0.2" o0).1

/-- C7 counterexample: for the oracle fact-check response
`ACCURACY_SCORE: 1.8` the stored `accuracy_score` is `1.8` (= `9/5`), strictly
greater than `1`, not the claimed clamped value `1.0`: `Moderator.fact_check`
stores the parsed float without clamping. -/
theorem C7_fact_check_not_clamped :
    (Moderator.fact_check init3 (advocate_parse "bull" "")
        "ACCURACY_SCORE: 1.8").accuracy_score = Rat.divInt 9 5
    ∧ (1 : ℚ) < Rat.divInt 9 5 := by
  constructor
  · decide
  · decide

/-- C7 amended: argument confidence, verdict confidence and the two verdict
scores are clamped to their ranges after parsing, for every response text;
the fact-check `accuracy_score`, however, is stored exactly as parsed, with
no clamping (so the out-of-range token `ACCURACY_SCORE: 1.8` is stored as
`1.8`). -/
theorem C7_clamping_except_fact_check
    (a r : String) (s : DebateState) (ag : Argument) :
    (0 ≤ (advocate_parse a r).confidence ∧ (advocate_parse a r).confidence ≤ 1)
    ∧ (0 ≤ (Judge.generate_verdict s r).confidence
        ∧ (Judge.generate_verdict s r).confidence ≤ 1)
    ∧ (0 ≤ (Judge.generate_verdict s r).bull_score
        ∧ (Judge.generate_verdict s r).bull_score ≤ 100)
    ∧ (0 ≤ (Judge.generate_verdict s r).bear_score
        ∧ (Judge.generate_verdict s r).bear_score ≤ 100)
    ∧ (Moderator.fact_check s ag r).accuracy_score
        = Moderator.fact_check_accuracy r :=
  ⟨clamp01_bounds _, clamp01_bounds _, clamp100_bounds _, clamp100_bounds _, rfl⟩

/-- C7 amended witness: the theorem applied at the out-of-range concrete
response, whose stored accuracy is `9/5`. -/
theorem C7_clamping_except_fact_check_witness :
    (Moderator.fact_check init3 (advocate_parse "bull" "")
        "ACCURACY_SCORE: 1.8").accuracy_score
      = Moderator.fact_check_accuracy "ACCURACY_SCORE: 1.8" :=
  (C7_clamping_except_fact_check "bull" "ACCURACY_SCORE: 1.8" init3
    (advocate_parse "bull" "")).2.2.2.2

/-- A verdict response whose bullet lines follow a `RISKS_TO_MONITOR:`
header. -/
def c9resp : String := "RISKS_TO_MONITOR:\n- alpha\n- beta"

/-- A verdict response with six bullet lines. -/
def c9six : String := "- f1\n- f2\n- f3\n- f4\n- f5\n- f6"

/-- C9 counterexample: for the response `RISKS_TO_MONITOR:` followed by the
bullets `- alpha` and `- beta`, the parsed verdict's `risks` is not the bullet
list capped at 3 but the fixed two-entry placeholder list (the bullets are
swallowed by `key_factors` instead, and the claimed one-entry fallback for
`risks` is in fact two entries). -/
theorem C9_risks_never_parsed :
    (Judge.generate_verdict init3 c9resp).risks
      = ["Market volatility", "Execution risk"]
    ∧ (Judge.generate_verdict init3 c9resp).key_factors = ["alpha", "beta"]
    ∧ (["Market volatility", "Execution risk"] : List String).length = 2 := by
  refine ⟨by decide, by decide, rfl⟩

/-- C9 amended: `key_factors` is collected from lines whose stripped form
begins with `-` (when not captured by an earlier labelled branch), capped at
5 entries, and falls back to the single placeholder entry when no bullet line
is found; `risks` is never collected from the response — for every response
text it is exactly the fixed two-entry placeholder list. -/
theorem C9_key_factors_capped_risks_fixed :
    (∀ (s : DebateState) (r : String),
      (Judge.generate_verdict s r).risks = ["Market volatility", "Execution risk"]
      ∧ (Judge.generate_verdict s r).key_factors.length ≤ 5
      ∧ 1 ≤ (Judge.generate_verdict s r).key_factors.length)
    ∧ (Judge.generate_verdict init3 "").key_factors
        = ["See detailed analysis in summary"]
    ∧ (Judge.generate_verdict init3 c9six).key_factors
        = ["f1", "f2", "f3", "f4", "f5"] := by
  refine ⟨fun s r => ⟨rfl, ?_, ?_⟩, by decide, by decide⟩
  · show ((if (Judge.parse_fields r).key_factors = []
        then ["See detailed analysis in summary"]
        else (Judge.parse_fields r).key_factors).take 5).length ≤ 5
    exact (List.length_take 5 _).le.trans (min_le_left _ _)
  · show 1 ≤ ((if (Judge.parse_fields r).key_factors = []
        then ["See detailed analysis in summary"]
        else (Judge.parse_fields r).key_factors).take 5).length
    rcases h : (Judge.parse_fields r).key_factors with _ | ⟨a, t⟩
    · simp
    · simp [h]

/-- C1 (code bug): evaluated at the failing input — the session state after
research and the opening advocate-for turn of a default `round_limit=3`
session — the moderator turn (between steps 2 and 3) hands control back to
`bull` even though no advocate-against argument exists yet: the arguments so
far are exactly `[bull, moderator]`, yet the next node is `bull` again, so
advocate-against never gets the turn the claimed alternation requires. -/
theorem C1_moderator_returns_to_bull_without_bear :
    (runDebate f0 o0 init3 2).node = Node.moderator
    ∧ ((runDebate f0 o0 init3 3).state.arguments.map Argument.agent)
        = ["bull", "moderator"]
    ∧ (runDebate f0 o0 init3 3).node = Node.bull := by
  refine ⟨by decide, by decide, by decide⟩

/-- C2 counterexample: in the reachable `max_rounds=0` session, the opening
advocate-for turn (between steps 1 and 2) runs with
`current_round >= max_rounds` already true, yet control goes to `moderator`,
not to the arbiter: `BullAgent.__call__` performs no round check. -/
theorem C2_bull_ignores_round_limit :
    (runDebate f0 o0 init0 1).node = Node.bull
    ∧ (runDebate f0 o0 init0 1).state.max_rounds
        ≤ (runDebate f0 o0 init0 1).state.current_round
    ∧ (runDebate f0 o0 init0 2).node = Node.moderator := by
  refine ⟨by decide, by decide, by decide⟩

/-- C2 amended: only the advocate-against turn routes on the round state —
`arbiter` when `round_index >= round_limit`, else `moderator`; the
advocate-for turn always routes to `moderator`, with no round check. -/
theorem C2_only_bear_checks_round (s : DebateState) (r : String) :
    (BearAgent.call s r).current_speaker
      = some (if s.current_round ≥ s.max_rounds then "judge" else "moderator")
    ∧ (BullAgent.call s r).current_speaker = some "moderator" :=
  ⟨rfl, rfl⟩

/-- C2 amended witness: the theorem applied at a concrete state at its round
limit. -/
theorem C2_only_bear_checks_round_witness :
    (BearAgent.call init0 "").current_speaker
      = some (if init0.current_round ≥ init0.max_rounds then "judge" else "moderator")
    ∧ (BullAgent.call init0 "").current_speaker = some "moderator" :=
  C2_only_bear_checks_round init0 ""

/-- C3 counterexample: the moderator turn of the default session (between
steps 2 and 3) leaves `current_round` at `0` — the moderator writes no
`current_round` key at all — refuting the claimed increment-by-1 on every
moderator turn. -/
theorem C3_moderator_does_not_increment :
    (runDebate f0 o0 init3 2).node = Node.moderator
    ∧ (runDebate f0 o0 init3 2).state.current_round = 0
    ∧ (runDebate f0 o0 init3 3).state.current_round = 0 := by
  refine ⟨by decide, by decide, by decide⟩

/-- C3 amended: `current_round` is incremented by exactly 1 on every
advocate-against turn and left unchanged by every other participant's turn
(the moderator included). -/
theorem C3_bear_increments_round
    (s : DebateState) (r : String) (rfc : ℕ → String) (f : FetchResults) :
    (applyUpdate s (BearAgent.call s r)).current_round = s.current_round + 1
    ∧ (applyUpdate s (Moderator.call s r rfc)).current_round = s.current_round
    ∧ (applyUpdate s (BullAgent.call s r)).current_round = s.current_round
    ∧ (applyUpdate s (Judge.call s r)).current_round = s.current_round
    ∧ (applyUpdate s (Researcher.call s f)).current_round = s.current_round :=
  ⟨rfl, rfl, rfl, rfl, rfl⟩

/-- C3 amended witness: the theorem applied at the initial default state. -/
theorem C3_bear_increments_round_witness :
    (applyUpdate init3 (BearAgent.call init3 "")).current_round
      = init3.current_round + 1 :=
  (C3_bear_increments_round init3 "" o0 f0).1

/-- Provider outcomes where only the earnings-history fetch raises and the
eight other categories return non-empty results. -/
def c5fetch : FetchResults :=
  { metrics := .ok [("COMPANY_NAME", "XY Corp"), ("PE_RATIO", "10")]
    earnings_history := .error "boom"
    technical_indicators := .ok [("RSI_14", "55")]
    sentiment := .ok [("OVERALL_SENTIMENT", "neutral")]
    insider_activity := .ok [[("INSIDER_NAME", "A")]]
    institutional_holdings := .ok [[("HOLDER", "F")]]
    analyst_reports := .ok [[("FIRM", "Z")]]
    earnings_transcripts := .ok [[("QUARTER", "Q1")]]
    sec_filings := .ok [[("TYPE", "10-K")]] }

/-- C5 counterexample: when only the earnings-history fetch raises, the
bundle does have the eight other categories populated and the earnings field
empty, and the failure is caught — but the caught error is only printed (one
stdout log line), and the state's `errors` sequence after the research turn
is still empty: no error descriptor is appended, refuting the claimed
"exactly one new entry in errors". -/
theorem C5_error_printed_not_recorded :
    (Researcher.gather_research "XYZ" c5fetch).1.earnings_history = []
    ∧ (Researcher.gather_research "XYZ" c5fetch).1.metrics
        = [("COMPANY_NAME", "XY Corp"), ("PE_RATIO", "10")]
    ∧ (Researcher.gather_research "XYZ" c5fetch).1.technical_indicators
        = [("RSI_14", "55")]
    ∧ (Researcher.gather_research "XYZ" c5fetch).1.sentiment
        = [("OVERALL_SENTIMENT", "neutral")]
    ∧ (Researcher.gather_research "XYZ" c5fetch).1.insider_activity
        = [[("INSIDER_NAME", "A")]]
    ∧ (Researcher.gather_research "XYZ" c5fetch).1.institutional_holdings
        = [[("HOLDER", "F")]]
    ∧ (Researcher.gather_research "XYZ" c5fetch).1.analyst_reports
        = [[("FIRM", "Z")]]
    ∧ (Researcher.gather_research "XYZ" c5fetch).1.earnings_transcripts
        = [[("QUARTER", "Q1")]]
    ∧ (Researcher.gather_research "XYZ" c5fetch).1.sec_filings
        = [[("TYPE", "10-K")]]
    ∧ (Researcher.gather_research "XYZ" c5fetch).2
        = ["Error getting earnings history: boom"]
    ∧ (applyUpdate init3 (Researcher.call init3 c5fetch)).errors = []
    ∧ (applyUpdate init3 (Researcher.call init3 c5fetch)).errors.length = 0 := by
  refine ⟨rfl, rfl, rfl, rfl, rfl, rfl, rfl, rfl, rfl, rfl, rfl, rfl⟩

/-- C5 amended: a failing category fetch is caught and isolated — the
category keeps its empty default, every other category is still populated,
the research turn never raises — but the failure is only printed as one
stdout log line; the session state's `errors` sequence is left unchanged
(the only writer of `errors` is the dead outer handler of
`Researcher.__call__`). -/
theorem C5_isolation_without_errors_entry
    (t e : String) (m ti se : StrDict)
    (ia ih ar et sf : List StrDict) (s : DebateState) :
    (Researcher.gather_research t
        { metrics := Except.ok m
          earnings_history := Except.error e
          technical_indicators := Except.ok ti
          sentiment := Except.ok se
          insider_activity := Except.ok ia
          institutional_holdings := Except.ok ih
          analyst_reports := Except.ok ar
          earnings_transcripts := Except.ok et
          sec_filings := Except.ok sf }).1.earnings_history = []
    ∧ (Researcher.gather_research t
        { metrics := Except.ok m
          earnings_history := Except.error e
          technical_indicators := Except.ok ti
          sentiment := Except.ok se
          insider_activity := Except.ok ia
          institutional_holdings := Except.ok ih
          analyst_reports := Except.ok ar
          earnings_transcripts := Except.ok et
          sec_filings := Except.ok sf }).1.metrics = m
    ∧ (Researcher.gather_research t
        { metrics := Except.ok m
          earnings_history := Except.error e
          technical_indicators := Except.ok ti
          sentiment := Except.ok se
          insider_activity := Except.ok ia
          institutional_holdings := Except.ok ih
          analyst_reports := Except.ok ar
          earnings_transcripts := Except.ok et
          sec_filings := Except.ok sf }).1.sec_filings = sf
    ∧ (Researcher.gather_research t
        { metrics := Except.ok m
          earnings_history := Except.error e
          technical_indicators := Except.ok ti
          sentiment := Except.ok se
          insider_activity := Except.ok ia
          institutional_holdings := Except.ok ih
          analyst_reports := Except.ok ar
          earnings_transcripts := Except.ok et
          sec_filings := Except.ok sf }).2
        = ["Error getting earnings history: " ++ e]
    ∧ (applyUpdate s (Researcher.call s
        { metrics := Except.ok m
          earnings_history := Except.error e
          technical_indicators := Except.ok ti
          sentiment := Except.ok se
          insider_activity := Except.ok ia
          institutional_holdings := Except.ok ih
          analyst_reports := Except.ok ar
          earnings_transcripts := Except.ok et
          sec_filings := Except.ok sf })).errors = s.errors :=
  ⟨rfl, rfl, rfl, rfl, rfl⟩

/-- C5 amended witness: the theorem applied at the concrete fixture. -/
theorem C5_isolation_without_errors_entry_witness :
    (applyUpdate init3 (Researcher.call init3
        { metrics := Except.ok [("COMPANY_NAME", "XY Corp"), ("PE_RATIO", "10")]
          earnings_history := Except.error "boom"
          technical_indicators := Except.ok [("RSI_14", "55")]
          sentiment := Except.ok [("OVERALL_SENTIMENT", "neutral")]
          insider_activity := Except.ok [[("INSIDER_NAME", "A")]]
          institutional_holdings := Except.ok [[("HOLDER", "F")]]
          analyst_reports := Except.ok [[("FIRM", "Z")]]
          earnings_transcripts := Except.ok [[("QUARTER", "Q1")]]
          sec_filings := Except.ok [[("TYPE", "10-K")]] })).errors
      = init3.errors :=
  (C5_isolation_without_errors_entry "XYZ" "boom"
    [("COMPANY_NAME", "XY Corp"), ("PE_RATIO", "10")] [("RSI_14", "55")]
    [("OVERALL_SENTIMENT", "neutral")] [[("INSIDER_NAME", "A")]]
    [[("HOLDER", "F")]] [[("FIRM", "Z")]] [[("QUARTER", "Q1")]]
    [[("TYPE", "10-K")]] init3).2.2.2.2

/-- An oracle whose third call (the first moderator's fact-check call)
answers `first` and every other call answers `later`. -/
def o6 : ℕ → String := fun n => if n == 2 then "first" else "later"

/-- C6 counterexample: in the default session, the FactCheck merged during
the first moderator turn (feedback `first`) is gone after the second
moderator turn — the later merge replaced the whole `fact_checks` list with
that turn's single new record, so `fact_checks` is not append-only. -/
theorem C6_fact_checks_overwritten :
    (runDebate f0 o6 init3 3).state.fact_checks
      = [⟨"bull", Rat.divInt 7 10, "first"⟩]
    ∧ (runDebate f0 o6 init3 5).state.fact_checks
      = [⟨"bull", Rat.divInt 7 10, "later"⟩] := by
  refine ⟨by decide, by decide⟩

/-- C6 amended: `fact_checks` is a last-value channel — each moderator turn
replaces it with that turn's checks, independently of the records already
stored — while `arguments` is the only append-merged sequence. -/
theorem C6_fact_checks_last_value
    (s : DebateState) (r : String) (rfc : ℕ → String) (u : StateUpdate) :
    (applyUpdate s (Moderator.call s r rfc)).fact_checks
      = (applyUpdate { s with fact_checks := [] }
          (Moderator.call s r rfc)).fact_checks
    ∧ (applyUpdate s u).arguments = s.arguments ++ u.arguments :=
  ⟨rfl, rfl⟩

/-- C6 amended witness: the theorem applied at a state already holding a
fact-check record. -/
theorem C6_fact_checks_last_value_witness :
    (applyUpdate { init3 with fact_checks := [⟨"bull", Rat.divInt 7 10, "old"⟩] }
        (Moderator.call { init3 with fact_checks := [⟨"bull", Rat.divInt 7 10, "old"⟩] } "" o0)).fact_checks
      = (applyUpdate { { init3 with fact_checks := [⟨"bull", Rat.divInt 7 10, "old"⟩] } with fact_checks := [] }
          (Moderator.call { init3 with fact_checks := [⟨"bull", Rat.divInt 7 10, "old"⟩] } "" o0)).fact_checks :=
  (C6_fact_checks_last_value
    { init3 with fact_checks := [⟨"bull", Rat.divInt 7 10, "old"⟩] } "" o0
    StateUpdate.empty).1

/-! ## Per-node step equations of the compiled graph -/

/-- Research step: unconditional edge to `bull`. -/
theorem step_research_eq (f : FetchResults) (o : ℕ → String)
    (s : DebateState) (k : ℕ) :
    step f o ⟨Node.research, s, k⟩
      = ⟨Node.bull, applyUpdate s (Researcher.call s f), k⟩ :=
  rfl

/-- Bull step: the bull always sets `current_speaker` to `moderator`, so the
router always sends control to the moderator node. -/
theorem step_bull_eq (f : FetchResults) (o : ℕ → String)
    (s : DebateState) (k : ℕ) :
    step f o ⟨Node.bull, s, k⟩
      = ⟨Node.moderator, applyUpdate s (BullAgent.call s (o k)), k + 1⟩ :=
  rfl

/-- Bear step below the round limit: to the moderator node. -/
theorem step_bear_low_eq (f : FetchResults) (o : ℕ → String)
    (s : DebateState) (k : ℕ) (h : ¬ s.current_round ≥ s.max_rounds) :
    step f o ⟨Node.bear, s, k⟩
      = ⟨Node.moderator, applyUpdate s (BearAgent.call s (o k)), k + 1⟩ := by
  have hspk : (applyUpdate s (BearAgent.call s (o k))).current_speaker
      = "moderator" := by
    show (if s.current_round ≥ s.max_rounds then "judge" else "moderator")
        = "moderator"
    exact if_neg h
  have hroute : route_next_speaker (applyUpdate s (BearAgent.call s (o k)))
      = "moderator" := by
    unfold route_next_speaker
    rw [hspk]
    rfl
  calc step f o ⟨Node.bear, s, k⟩
      = Config.mk
          (advocateDest (route_next_speaker (applyUpdate s (BearAgent.call s (o k)))))
          (applyUpdate s (BearAgent.call s (o k))) (k + 1) := rfl
    _ = _ := by
        rw [hroute]
        rfl

/-- Bear step at or past the round limit: to the judge node. -/
theorem step_bear_high_eq (f : FetchResults) (o : ℕ → String)
    (s : DebateState) (k : ℕ) (h : s.current_round ≥ s.max_rounds) :
    step f o ⟨Node.bear, s, k⟩
      = ⟨Node.judge, applyUpdate s (BearAgent.call s (o k)), k + 1⟩ := by
  have hspk : (applyUpdate s (BearAgent.call s (o k))).current_speaker
      = "judge" := by
    show (if s.current_round ≥ s.max_rounds then "judge" else "moderator")
        = "judge"
    exact if_pos h
  have hroute : route_next_speaker (applyUpdate s (BearAgent.call s (o k)))
      = "judge" := by
    unfold route_next_speaker
    rw [hspk]
    rfl
  calc step f o ⟨Node.bear, s, k⟩
      = Config.mk
          (advocateDest (route_next_speaker (applyUpdate s (BearAgent.call s (o k)))))
          (applyUpdate s (BearAgent.call s (o k))) (k + 1) := rfl
    _ = _ := by
        rw [hroute]
        rfl

/-- Moderator step below the round limit: back to the bull node. -/
theorem step_moderator_low_eq (f : FetchResults) (o : ℕ → String)
    (s : DebateState) (k : ℕ) (h : ¬ s.current_round ≥ s.max_rounds) :
    step f o ⟨Node.moderator, s, k⟩
      = ⟨Node.bull,
          applyUpdate s (Moderator.call s (o k) (fun i => o (k + 1 + i))),
          k + 1 + (Moderator.argsToCheck s).length⟩ := by
  have hspk : (applyUpdate s
      (Moderator.call s (o k) (fun i => o (k + 1 + i)))).current_speaker
      = "bull" := by
    show (if s.current_round ≥ s.max_rounds then "judge" else "bull") = "bull"
    exact if_neg h
  have hrnd : ¬ ((applyUpdate s
      (Moderator.call s (o k) (fun i => o (k + 1 + i)))).current_round
      > (applyUpdate s
          (Moderator.call s (o k) (fun i => o (k + 1 + i)))).max_rounds) := by
    show ¬ s.current_round > s.max_rounds
    omega
  have hroute : route_after_moderator (applyUpdate s
      (Moderator.call s (o k) (fun i => o (k + 1 + i)))) = "bull" := by
    unfold route_after_moderator
    rw [hspk]
    rw [if_neg (by
      rintro (hj | hgt)
      · exact absurd hj (by decide)
      · exact hrnd hgt)]
    rw [if_pos rfl]
  calc step f o ⟨Node.moderator, s, k⟩
      = Config.mk
          (moderatorDest (route_after_moderator (applyUpdate s
            (Moderator.call s (o k) (fun i => o (k + 1 + i))))))
          (applyUpdate s (Moderator.call s (o k) (fun i => o (k + 1 + i))))
          (k + 1 + (Moderator.argsToCheck s).length) := rfl
    _ = _ := by
        rw [hroute]
        rfl

/-- Moderator step at or past the round limit: to the judge node. -/
theorem step_moderator_high_eq (f : FetchResults) (o : ℕ → String)
    (s : DebateState) (k : ℕ) (h : s.current_round ≥ s.max_rounds) :
    step f o ⟨Node.moderator, s, k⟩
      = ⟨Node.judge,
          applyUpdate s (Moderator.call s (o k) (fun i => o (k + 1 + i))),
          k + 1 + (Moderator.argsToCheck s).length⟩ := by
  have hspk : (applyUpdate s
      (Moderator.call s (o k) (fun i => o (k + 1 + i)))).current_speaker
      = "judge" := by
    show (if s.current_round ≥ s.max_rounds then "judge" else "bull") = "judge"
    exact if_pos h
  have hroute : route_after_moderator (applyUpdate s
      (Moderator.call s (o k) (fun i => o (k + 1 + i)))) = "judge" := by
    unfold route_after_moderator
    rw [hspk]
    rw [if_pos (Or.inl rfl)]
  calc step f o ⟨Node.moderator, s, k⟩
      = Config.mk
          (moderatorDest (route_after_moderator (applyUpdate s
            (Moderator.call s (o k) (fun i => o (k + 1 + i))))))
          (applyUpdate s (Moderator.call s (o k) (fun i => o (k + 1 + i))))
          (k + 1 + (Moderator.argsToCheck s).length) := rfl
    _ = _ := by
        rw [hroute]
        rfl

/-- Judge step: unconditional edge to `END`. -/
theorem step_judge_eq (f : FetchResults) (o : ℕ → String)
    (s : DebateState) (k : ℕ) :
    step f o ⟨Node.judge, s, k⟩
      = ⟨Node.done, applyUpdate s (Judge.call s (o k)), k + 1⟩ :=
  rfl

/-- `END` is absorbing. -/
theorem step_done_eq (f : FetchResults) (o : ℕ → String)
    (s : DebateState) (k : ℕ) :
    step f o ⟨Node.done, s, k⟩ = ⟨Node.done, s, k⟩ :=
  rfl

/-- C4 (code bug): for the default `round_limit=3` session, whatever the
oracle answers and whatever the research provider returns, the compiled graph
never leaves the research/bull/moderator node set and `current_round` stays
at `0` forever — in particular it is still running after the spec's example
ceiling of `2*round_limit + 4` steps and never reaches a terminal or
error state.  The repository configures no step ceiling at all, so the
claimed routing-exhaustion abort derived from `round_limit` does not exist:
the only the-loop-stops mechanism is the external graph runtime's fixed
default recursion limit, which is unrelated to `round_limit`. -/
theorem C4_loop_never_terminates
    (f : FetchResults) (o : ℕ → String) (n : ℕ) :
    ((runDebate f o init3 n).node = Node.research
      ∨ (runDebate f o init3 n).node = Node.bull
      ∨ (runDebate f o init3 n).node = Node.moderator)
    ∧ (runDebate f o init3 n).state.current_round = 0
    ∧ (runDebate f o init3 n).state.max_rounds = 3 := by
  induction n with
  | zero => exact ⟨Or.inl rfl, rfl, rfl⟩
  | succ n ih =>
    obtain ⟨hn, hr, hm⟩ := ih
    rcases hc : runDebate f o init3 n with ⟨node, s, k⟩
    rw [hc] at hn hr hm
    have hstep : runDebate f o init3 (n + 1) = step f o ⟨node, s, k⟩ := by
      show step f o (runDebate f o init3 n) = _
      rw [hc]
    rcases hn with h | h | h
    · cases h
      rw [hstep, step_research_eq]
      exact ⟨Or.inr (Or.inl rfl), hr, hm⟩
    · cases h
      rw [hstep, step_bull_eq]
      exact ⟨Or.inr (Or.inr rfl), hr, hm⟩
    · cases h
      have hlt : ¬ (⟨Node.moderator, s, k⟩ : Config).state.current_round
          ≥ (⟨Node.moderator, s, k⟩ : Config).state.max_rounds := by
        show ¬ s.current_round ≥ s.max_rounds
        rw [show s.current_round = 0 from hr, show s.max_rounds = 3 from hm]
        decide
      rw [hstep, step_moderator_low_eq f o s k hlt]
      exact ⟨Or.inr (Or.inl rfl), hr, hm⟩

/-! ## Verdict/terminal invariant -/

/-- The terminal invariant of one configuration: at `END` the verdict is
present and the routing cursor reads `end`; at every other node the verdict
is still absent and the cursor is not `end`. -/
def TerminalInv (c : Config) : Prop :=
  (c.node = Node.done →
    c.state.verdict.isSome = true ∧ c.state.current_speaker = "end")
  ∧ (c.node ≠ Node.done →
    c.state.verdict = none ∧ c.state.current_speaker ≠ "end")

/-- One graph step preserves the terminal invariant: only the judge writes
`verdict`, and it writes `current_speaker = "end"` in the same update; every
other node leaves `verdict` alone and writes a non-`end` cursor. -/
theorem step_preserves_TerminalInv (f : FetchResults) (o : ℕ → String)
    (c : Config) (h : TerminalInv c) : TerminalInv (step f o c) := by
  obtain ⟨h1, h2⟩ := h
  rcases c with ⟨node, s, k⟩
  cases node with
  | research =>
    obtain ⟨hv, _⟩ := h2 (fun hd => Node.noConfusion hd)
    rw [step_research_eq]
    refine ⟨fun hd => Node.noConfusion hd, fun _ => ⟨?_, ?_⟩⟩
    · show s.verdict = none
      exact hv
    · show ("bull" : String) ≠ "end"
      decide
  | bull =>
    obtain ⟨hv, _⟩ := h2 (fun hd => Node.noConfusion hd)
    rw [step_bull_eq]
    refine ⟨fun hd => Node.noConfusion hd, fun _ => ⟨?_, ?_⟩⟩
    · show s.verdict = none
      exact hv
    · show ("moderator" : String) ≠ "end"
      decide
  | bear =>
    obtain ⟨hv, _⟩ := h2 (fun hd => Node.noConfusion hd)
    by_cases hge : s.current_round ≥ s.max_rounds
    · rw [step_bear_high_eq f o s k hge]
      refine ⟨fun hd => Node.noConfusion hd, fun _ => ⟨?_, ?_⟩⟩
      · show s.verdict = none
        exact hv
      · show ¬ (if s.current_round ≥ s.max_rounds then "judge" else "moderator")
            = "end"
        rw [if_pos hge]
        decide
    · rw [step_bear_low_eq f o s k hge]
      refine ⟨fun hd => Node.noConfusion hd, fun _ => ⟨?_, ?_⟩⟩
      · show s.verdict = none
        exact hv
      · show ¬ (if s.current_round ≥ s.max_rounds then "judge" else "moderator")
            = "end"
        rw [if_neg hge]
        decide
  | moderator =>
    obtain ⟨hv, _⟩ := h2 (fun hd => Node.noConfusion hd)
    by_cases hge : s.current_round ≥ s.max_rounds
    · rw [step_moderator_high_eq f o s k hge]
      refine ⟨fun hd => Node.noConfusion hd, fun _ => ⟨?_, ?_⟩⟩
      · show s.verdict = none
        exact hv
      · show ¬ (if s.current_round ≥ s.max_rounds then "judge" else "bull")
            = "end"
        rw [if_pos hge]
        decide
    · rw [step_moderator_low_eq f o s k hge]
      refine ⟨fun hd => Node.noConfusion hd, fun _ => ⟨?_, ?_⟩⟩
      · show s.verdict = none
        exact hv
      · show ¬ (if s.current_round ≥ s.max_rounds then "judge" else "bull")
            = "end"
        rw [if_neg hge]
        decide
  | judge =>
    rw [step_judge_eq]
    exact ⟨fun _ => ⟨rfl, rfl⟩, fun hnd => absurd rfl hnd⟩
  | done =>
    rw [step_done_eq]
    exact ⟨h1, h2⟩
  | invalid =>
    exact ⟨h1, h2⟩

/-- Every configuration reachable from an initial state satisfies the
terminal invariant. -/
theorem runDebate_TerminalInv (t : String) (q : Option String) (mr : ℤ)
    (f : FetchResults) (o : ℕ → String) (n : ℕ) :
    TerminalInv (runDebate f o (create_initial_state t q mr) n) := by
  induction n with
  | zero =>
    refine ⟨fun hd => Node.noConfusion hd, fun _ => ⟨rfl, ?_⟩⟩
    show ("research" : String) ≠ "end"
    decide
  | succ n ih =>
    exact step_preserves_TerminalInv f o _ ih

/-- A step out of a node other than the judge node (and other than `END`
itself) never lands on `END`. -/
theorem step_done_only_from_judge (f : FetchResults) (o : ℕ → String)
    (c : Config) (hj : c.node ≠ Node.judge) (hd : c.node ≠ Node.done) :
    (step f o c).node ≠ Node.done := by
  rcases c with ⟨node, s, k⟩
  cases node with
  | research =>
    rw [step_research_eq]
    exact fun hc => Node.noConfusion hc
  | bull =>
    rw [step_bull_eq]
    exact fun hc => Node.noConfusion hc
  | bear =>
    by_cases hge : s.current_round ≥ s.max_rounds
    · rw [step_bear_high_eq f o s k hge]
      exact fun hc => Node.noConfusion hc
    · rw [step_bear_low_eq f o s k hge]
      exact fun hc => Node.noConfusion hc
  | moderator =>
    by_cases hge : s.current_round ≥ s.max_rounds
    · rw [step_moderator_high_eq f o s k hge]
      exact fun hc => Node.noConfusion hc
    · rw [step_moderator_low_eq f o s k hge]
      exact fun hc => Node.noConfusion hc
  | judge => exact absurd rfl hj
  | done => exact absurd rfl hd
  | invalid =>
    exact fun hc => Node.noConfusion hc

/-- C8: in every reachable session state the verdict is present exactly when
the routing cursor is `end`; the judge turn writes the verdict and the `end`
cursor in one and the same update; a step from any node other than the judge
node never reaches `END`; and `END` is absorbing. -/
theorem C8_verdict_iff_terminal :
    (∀ (t : String) (q : Option String) (mr : ℤ) (f : FetchResults)
        (o : ℕ → String) (n : ℕ),
      (runDebate f o (create_initial_state t q mr) n).state.verdict.isSome = true
        ↔ (runDebate f o (create_initial_state t q mr) n).state.current_speaker
            = "end")
    ∧ (∀ (s : DebateState) (r : String),
      (Judge.call s r).verdict = some (Judge.generate_verdict s r)
      ∧ (Judge.call s r).current_speaker = some "end")
    ∧ (∀ (f : FetchResults) (o : ℕ → String) (s : DebateState) (k : ℕ),
      step f o ⟨Node.done, s, k⟩ = ⟨Node.done, s, k⟩)
    ∧ (∀ (t : String) (q : Option String) (mr : ℤ) (f : FetchResults)
        (o : ℕ → String) (n : ℕ),
      (runDebate f o (create_initial_state t q mr) (n + 1)).node = Node.done →
        (runDebate f o (create_initial_state t q mr) n).node = Node.judge
        ∨ (runDebate f o (create_initial_state t q mr) n).node = Node.done) := by
  refine ⟨?_, fun s r => ⟨rfl, rfl⟩, fun f o s k => step_done_eq f o s k, ?_⟩
  · intro t q mr f o n
    obtain ⟨h1, h2⟩ := runDebate_TerminalInv t q mr f o n
    by_cases hd : (runDebate f o (create_initial_state t q mr) n).node = Node.done
    · obtain ⟨hv, hs⟩ := h1 hd
      exact ⟨fun _ => hs, fun _ => hv⟩
    · obtain ⟨hv, hs⟩ := h2 hd
      constructor
      · intro hsome
        rw [hv] at hsome
        exact absurd hsome (by decide)
      · intro hse
        exact absurd hse hs
  · intro t q mr f o n hdone
    by_cases hj : (runDebate f o (create_initial_state t q mr) n).node = Node.judge
    · exact Or.inl hj
    · by_cases hd : (runDebate f o (create_initial_state t q mr) n).node = Node.done
      · exact Or.inr hd
      · exact absurd hdone
          (step_done_only_from_judge f o
            (runDebate f o (create_initial_state t q mr) n) hj hd)

/-- C8 witness: in the `max_rounds=0` session the graph reaches `END` at step
4, and the theorem's only-from-judge component, applied there, places the
judge node at step 3; the iff component is instantiated at the terminal
configuration. -/
theorem C8_verdict_iff_terminal_witness :
    ((runDebate f0 o0 init0 3).node = Node.judge
      ∨ (runDebate f0 o0 init0 3).node = Node.done)
    ∧ ((runDebate f0 o0 init0 4).state.verdict.isSome = true
        ↔ (runDebate f0 o0 init0 4).state.current_speaker = "end") :=
  ⟨C8_verdict_iff_terminal.2.2.2 "XYZ" none 0 f0 o0 3 (by decide),
   C8_verdict_iff_terminal.1 "XYZ" none 0 f0 o0 4⟩

end Debate
